import Mathlib

/-!
Verification of the query-cache and fetch-coordination core of the
coin-market page (src/src/App.tsx).

The source is a single React component built on react-query.  The parts of
the behaviour that are written in the repository itself — the two cache
keys built in useGetMarketCoinsQuery, the initialData fallback, the
onSuccess / onError callbacks, handleQueryError, handlePageChange and the
QueryClient configuration — are embedded directly from App.tsx.  The
coordinator semantics supplied by the react-query library (synchronous
seeding, deduplication of in-flight fetches, completion transitions) are
not present in the repository source, so they are modelled from the spec
and marked as such in their doc comments.
-/

namespace CoinMarket

/-- One market-entry record, from the MarketCoins interface in App.tsx.
TS numbers carrying opaque pass-through values are modelled as Int; the
logic verified here never computes on them. -/
structure MarketCoins where
  id : String
  symbol : String
  name : String
  image : String
  current_price : Int
  market_cap : Int
  market_cap_rank : Int
  circulating_supply : Int
  total_supply : Option Int
  max_supply : Option Int
deriving DecidableEq, Repr

/-- The request shape consumed by useGetMarketCoinsQuery: the two watched
filter fields and the two pagination state fields of CoinMarketPage. -/
structure QueryParams where
  currency : String
  sortOrder : String
  page : Nat
  pageSize : Nat
deriving DecidableEq, Repr

/-- The string tag of the MarketCoinsQueries enum in App.tsx. -/
def GET_MARKET_COINS_QUERIES : String := "GET_MARKET_COINS_QUERIES"

/-- The key used for queryClient.getQueryData / setQueryData in
useGetMarketCoinsQuery: [GET_MARKET_COINS_QUERIES, currency, marketCap,
currentPage] — no pageSize. -/
structure DisplayKey where
  tag : String
  currency : String
  sortOrder : String
  page : Nat
deriving DecidableEq, Repr

/-- The key passed to useQuery itself: [GET_MARKET_COINS_QUERIES,
currency, marketCap, currentPage, pageSize]. -/
structure FetchKey where
  tag : String
  currency : String
  sortOrder : String
  page : Nat
  pageSize : Nat
deriving DecidableEq, Repr

def displayKey (p : QueryParams) : DisplayKey :=
  ⟨GET_MARKET_COINS_QUERIES, p.currency, p.sortOrder, p.page⟩

def fetchKey (p : QueryParams) : FetchKey :=
  ⟨GET_MARKET_COINS_QUERIES, p.currency, p.sortOrder, p.page, p.pageSize⟩

/-- The shape of a failure value examined by handleQueryError: whether it
is an AxiosError, its optional response (whose body may carry a message
field), whether a request object is attached (request sent), and the
Error message used by the fallback branch.  An absent or empty-string
message field is falsy in JS. -/
structure QueryError where
  isAxiosError : Bool
  responseMessage : Option (Option String)
  request : Bool
  message : String
deriving DecidableEq, Repr

/-- JS truthiness of the optional string read by `response?.data.message`:
undefined and the empty string are falsy. -/
def jsTruthyStr : Option String → Bool
  | none => false
  | some s => s ≠ ""

/-- handleQueryError from App.tsx: an AxiosError with a response returns
`response?.data.message || "Unknown error"`; an AxiosError with a request
but no response returns "No response from server"; anything else returns
the error's own message. -/
def handleQueryError (e : QueryError) : String :=
  match e.isAxiosError, e.responseMessage with
  | true, some m => if jsTruthyStr m then m.getD "" else "Unknown error"
  | true, none => if e.request then "No response from server" else e.message
  | false, _ => e.message

/-- The case of a failure whose remote responded (AxiosError with a
response object). -/
def serverRespondedCase (e : QueryError) : Prop :=
  e.isAxiosError = true ∧ e.responseMessage.isSome

/-- The case of a failure where the request was sent but no response was
received (AxiosError with a request object and no response). -/
def noResponseCase (e : QueryError) : Prop :=
  e.isAxiosError = true ∧ e.responseMessage = none ∧ e.request = true

/-- Any other failure. -/
def otherFailureCase (e : QueryError) : Prop :=
  ¬ serverRespondedCase e ∧ ¬ noResponseCase e

/-- The Query Cache Store: the queryClient's key→data map, written only
through setQueryData under the display key.  Represented as an
association list; set overwrites the prior entry for its key. -/
abbrev Store := List (DisplayKey × List MarketCoins)

def storeGet (st : Store) (k : DisplayKey) : Option (List MarketCoins) :=
  match st.find? (fun e => e.1 = k) with
  | some e => some e.2
  | none => none

def storeSet (st : Store) (k : DisplayKey) (v : List MarketCoins) : Store :=
  (k, v) :: st.filter (fun e => e.1 ≠ k)

/-- Coordinator state: the Query Cache Store, the set of fetch keys with
a fetch currently in flight, and the set of fetch keys ever invoked. -/
structure CoordState where
  store : Store
  inflight : List FetchKey
  everRun : List FetchKey
deriving DecidableEq, Repr

/-- The empty session-start state: empty Store, nothing in flight. -/
def initialState : CoordState := ⟨[], [], []⟩

/-- The observable state consumed by the presentation layer. -/
structure ObservableState where
  data : List MarketCoins
  isLoading : Bool
  isFetching : Bool
  error : Option String
deriving DecidableEq, Repr

/-- Result of one run invocation: the synchronously returned observable
state, the successor coordinator state, and whether a Remote Fetcher call
was issued (false when deduplicated onto an in-flight fetch). -/
structure RunResult where
  obs : ObservableState
  state : CoordState
  fetchIssued : Bool
deriving DecidableEq, Repr

/-- Modelled from the spec: the Query Coordinator's run (§4.3 steps 1–4),
whose engine is the react-query library and is not in the repository
source.  The display key lookup seeding data (the
`marketCoinsQueryData || []` initialData of useGetMarketCoinsQuery) and
both keys are from App.tsx; isLoading (true only on a fetch key's
first-ever invocation with no cached value), isFetching = true, and
deduplication against the in-flight set follow the spec's words. -/
def run (s : CoordState) (p : QueryParams) : RunResult :=
  let dk := displayKey p
  let fk := fetchKey p
  let cached := storeGet s.store dk
  let dedup : Bool := fk ∈ s.inflight
  { obs := { data := cached.getD []
             isLoading := cached.isNone && !(fk ∈ s.everRun : Bool)
             isFetching := true
             error := none }
    state := { store := s.store
               inflight := if fk ∈ s.inflight then s.inflight else fk :: s.inflight
               everRun := if fk ∈ s.everRun then s.everRun else fk :: s.everRun }
    fetchIssued := !dedup }

/-- Modelled from the spec: fetch completion on success (§4.3 step 5) —
the library resolves the fetch; the onSuccess callback of
useGetMarketCoinsQuery then writes the result under the display key via
setQueryData, and the observable state becomes
{data, isLoading := false, isFetching := false, error := none}. -/
def completeSuccess (s : CoordState) (p : QueryParams)
    (result : List MarketCoins) : ObservableState × CoordState :=
  ({ data := result, isLoading := false, isFetching := false, error := none },
   { store := storeSet s.store (displayKey p) result
     inflight := s.inflight.erase (fetchKey p)
     everRun := s.everRun })

/-- Result of a failed fetch completion: the observable state, the
successor coordinator state, the per-observer state notifications, and
the toast side effects fired. -/
structure FailureResult where
  obs : ObservableState
  state : CoordState
  observerNotices : List ObservableState
  toasts : List String
deriving DecidableEq, Repr

/-- Modelled from the spec: fetch completion on failure (§4.3 step 6) —
the Store is not written, displayed data keeps its prior value, every
attached observer is notified of the new state, and the onError callback
of useGetMarketCoinsQuery fires
errorNotificationToast (handleQueryError err) once for the failed fetch.
priorData is the last displayed data; observers the number of observers
attached to this fetch key. -/
def completeFailure (s : CoordState) (p : QueryParams)
    (priorData : List MarketCoins) (err : QueryError)
    (observers : Nat) : FailureResult :=
  let obs : ObservableState :=
    { data := priorData, isLoading := false, isFetching := false
      error := some (handleQueryError err) }
  { obs := obs
    state := { store := s.store
               inflight := s.inflight.erase (fetchKey p)
               everRun := s.everRun }
    observerNotices := List.replicate observers obs
    toasts := [handleQueryError err] }

/-- The defaultOptions.queries configuration of the QueryClient built in
App (App.tsx). -/
structure QueryClientConfig where
  refetchOnWindowFocus : Bool
  keepPreviousData : Bool
deriving DecidableEq, Repr

def appQueryClientConfig : QueryClientConfig :=
  { refetchOnWindowFocus := false, keepPreviousData := true }

/-- Modelled from the spec: the library refetches on regaining window
focus exactly when the refetchOnWindowFocus option is set; this predicate
says whether a focus event issues a fetch. -/
def focusRefetchIssued (c : QueryClientConfig) : Bool :=
  c.refetchOnWindowFocus

/-- The page / pageSize component state written by handlePageChange. -/
structure PageState where
  currentPage : Nat
  pageSize : Nat
deriving DecidableEq, Repr

/-- JS truthiness of the pageSize argument of handlePageChange: 0 is
falsy, as is an absent (undefined) value. -/
def jsTruthyNum : Option Nat → Bool
  | none => false
  | some n => n ≠ 0

/-- handlePageChange from App.tsx: setCurrentPage(page) unconditionally,
then setPageSize(pageSize) only under `if (pageSize)`.  The TS annotation
is number, but the guard exists because callers may hand a falsy value;
an absent value is modelled as none. -/
def handlePageChange (st : PageState) (page : Nat)
    (pageSize : Option Nat) : PageState :=
  let st1 : PageState := { st with currentPage := page }
  if jsTruthyNum pageSize then { st1 with pageSize := pageSize.getD 0 }
  else st1

/-- The steps that mutate coordinator state: a run invocation, or the
completion (success or failure) of an in-flight fetch. -/
inductive Step : CoordState → CoordState → Prop
  | runStep (s : CoordState) (p : QueryParams) : Step s (run s p).state
  | successStep (s : CoordState) (p : QueryParams)
      (result : List MarketCoins) (h : fetchKey p ∈ s.inflight) :
      Step s (completeSuccess s p result).2
  | failureStep (s : CoordState) (p : QueryParams)
      (priorData : List MarketCoins) (err : QueryError) (observers : Nat)
      (h : fetchKey p ∈ s.inflight) :
      Step s (completeFailure s p priorData err observers).state

/-- States reachable from the empty session-start state. -/
def Reachable (s : CoordState) : Prop :=
  Relation.ReflTransGen Step initialState s

/-- A sample market-entry record, used to instantiate theorems. -/
def sampleCoin : MarketCoins :=
  ⟨"bitcoin", "btc", "Bitcoin", "btc.png", 50000, 900000000, 1,
   19000000, some 19000000, some 21000000⟩

/-- The initial query of the page: defaults of useForm plus the initial
useState values of CoinMarketPage. -/
def pOne : QueryParams := ⟨"usd", "market_cap_desc", 1, 10⟩

/-- The same filters on page 2. -/
def pTwo : QueryParams := ⟨"usd", "market_cap_desc", 2, 10⟩

/-- The initial query with the page size changed to 20. -/
def pOneLarger : QueryParams := ⟨"usd", "market_cap_desc", 1, 20⟩

theorem storeGet_storeSet_self (st : Store) (k : DisplayKey)
    (v : List MarketCoins) : storeGet (storeSet st k v) k = some v := by
  simp [storeGet, storeSet]

theorem step_preserves_nodup {s t : CoordState} (h : Step s t)
    (hn : s.inflight.Nodup) : t.inflight.Nodup := by
  cases h with
  | runStep p =>
    by_cases hf : fetchKey p ∈ s.inflight
    · simpa [run, hf] using hn
    · simpa [run, hf] using hn
  | successStep p result h =>
    exact hn.erase _
  | failureStep p priorData err observers h =>
    exact hn.erase _

theorem reachable_inflight_nodup (s : CoordState) (h : Reachable s) :
    s.inflight.Nodup := by
  induction h with
  | refl => simp [initialState]
  | tail _ hstep ih => exact step_preserves_nodup hstep ih

/-- C2: a first-ever run invocation on the empty Query Cache Store
synchronously returns data = empty sequence, isLoading = true,
isFetching = true. -/
theorem run_first_invocation_initial_state (p : QueryParams) :
    (run initialState p).obs.data = [] ∧
    (run initialState p).obs.isLoading = true ∧
    (run initialState p).obs.isFetching = true := by
  refine ⟨?_, ?_, rfl⟩ <;> simp [run, initialState, storeGet]

/-- C3: a successful fetch stores the result under the display key — a
subsequent Store lookup returns exactly the fetched sequence — and the
observable state becomes {data = result, isLoading = false,
isFetching = false, error = none}. -/
theorem completeSuccess_stores_result (s : CoordState) (p : QueryParams)
    (result : List MarketCoins) :
    storeGet (completeSuccess s p result).2.store (displayKey p) = some result ∧
    (completeSuccess s p result).1 =
      { data := result, isLoading := false, isFetching := false, error := none } :=
  ⟨storeGet_storeSet_self s.store (displayKey p) result, rfl⟩

/-- C4: a failed fetch leaves the Query Cache Store unchanged — in
particular the display-key lookup returns what it held before — and the
displayed data keeps its prior value. -/
theorem completeFailure_preserves_store (s : CoordState) (p : QueryParams)
    (priorData : List MarketCoins) (err : QueryError) (observers : Nat) :
    (completeFailure s p priorData err observers).state.store = s.store ∧
    storeGet (completeFailure s p priorData err observers).state.store (displayKey p)
      = storeGet s.store (displayKey p) ∧
    (completeFailure s p priorData err observers).obs.data = priorData :=
  ⟨rfl, rfl, rfl⟩

/-- C8: a failed fetch fires the error toast exactly once — the toast
list is the single classified message, of length one, independent of the
number of attached observers (who each receive a state notification, not
a toast). -/
theorem completeFailure_single_toast (s : CoordState) (p : QueryParams)
    (priorData : List MarketCoins) (err : QueryError) (observers : Nat) :
    (completeFailure s p priorData err observers).toasts = [handleQueryError err] ∧
    (completeFailure s p priorData err observers).toasts.length = 1 ∧
    (completeFailure s p priorData err observers).observerNotices.length = observers :=
  ⟨rfl, rfl, by simp [completeFailure]⟩

/-- C9: an error whose remote response is present but whose body carries
no message field is reported with the fixed string "Unknown error". -/
theorem handleQueryError_no_message_payload (e : QueryError)
    (hax : e.isAxiosError = true) (hresp : e.responseMessage = some none) :
    handleQueryError e = "Unknown error" := by
  obtain ⟨ax, rm, rq, msg⟩ := e
  cases hax
  cases hresp
  simp [handleQueryError, jsTruthyStr]

theorem handleQueryError_no_message_payload_witness :
    handleQueryError ⟨true, some none, true, "local"⟩ = "Unknown error" :=
  handleQueryError_no_message_payload ⟨true, some none, true, "local"⟩ rfl rfl

/-- C10: handlePageChange always sets the current page to the given page;
the page size is updated only when the given pageSize is truthy
(present and nonzero), a zero or absent value leaving it unchanged. -/
theorem handlePageChange_updates (st : PageState) (page : Nat)
    (pageSize : Option Nat) :
    (handlePageChange st page pageSize).currentPage = page ∧
    (jsTruthyNum pageSize = false →
      (handlePageChange st page pageSize).pageSize = st.pageSize) ∧
    (jsTruthyNum pageSize = true →
      (handlePageChange st page pageSize).pageSize = pageSize.getD 0) := by
  by_cases h : jsTruthyNum pageSize = true
  · exact ⟨by simp [handlePageChange, h], by simp [h], fun _ => by simp [handlePageChange, h]⟩
  · exact ⟨by simp [handlePageChange, h], fun _ => by simp [handlePageChange, h], by simp [h]⟩

theorem handlePageChange_updates_witness :
    (handlePageChange ⟨1, 10⟩ 3 (some 0)).currentPage = 3 ∧
    (handlePageChange ⟨1, 10⟩ 3 (some 0)).pageSize = 10 :=
  ⟨(handlePageChange_updates ⟨1, 10⟩ 3 (some 0)).1,
   (handlePageChange_updates ⟨1, 10⟩ 3 (some 0)).2.1 (by decide)⟩

/-- C1: two QueryParams agreeing on (currency, sortOrder, page) but
differing in pageSize share the display key yet have different fetch
keys, so running the second issues a new fetch while synchronously
showing whatever the Store holds for the shared display key. -/
theorem pageSize_change_key_asymmetry (p q : QueryParams) (s : CoordState)
    (hc : q.currency = p.currency) (hs : q.sortOrder = p.sortOrder)
    (hp : q.page = p.page) (hps : q.pageSize ≠ p.pageSize)
    (hin : fetchKey q ∉ s.inflight) :
    displayKey q = displayKey p ∧ fetchKey q ≠ fetchKey p ∧
    (run s q).fetchIssued = true ∧
    (run s q).obs.data = (storeGet s.store (displayKey p)).getD [] := by
  have hdk : displayKey q = displayKey p := by
    simp [displayKey, hc, hs, hp]
  refine ⟨hdk, ?_, ?_, ?_⟩
  · intro h
    exact hps (congrArg FetchKey.pageSize h)
  · simp [run, hin]
  · simp [run, hdk]

theorem pageSize_change_key_asymmetry_witness :
    displayKey pOneLarger = displayKey pOne ∧
    fetchKey pOneLarger ≠ fetchKey pOne ∧
    (run ⟨[(displayKey pOne, [sampleCoin])], [], []⟩ pOneLarger).fetchIssued = true ∧
    (run ⟨[(displayKey pOne, [sampleCoin])], [], []⟩ pOneLarger).obs.data =
      (storeGet [(displayKey pOne, [sampleCoin])] (displayKey pOne)).getD [] :=
  pageSize_change_key_asymmetry pOne pOneLarger
    ⟨[(displayKey pOne, [sampleCoin])], [], []⟩
    rfl rfl rfl (by decide) (by decide)

/-- C5: every failure falls in exactly one of the three classification
cases, and handleQueryError reports it accordingly: a remote-responded
failure carries the response's message payload, a sent-but-unanswered
request is reported as the no-response error, and any other failure
carries the failure's own message. -/
theorem handleQueryError_taxonomy (e : QueryError) :
    (serverRespondedCase e ∨ noResponseCase e ∨ otherFailureCase e) ∧
    ¬ (serverRespondedCase e ∧ noResponseCase e) ∧
    ¬ (serverRespondedCase e ∧ otherFailureCase e) ∧
    ¬ (noResponseCase e ∧ otherFailureCase e) ∧
    (serverRespondedCase e → ∀ m, e.responseMessage = some (some m) → m ≠ "" →
      handleQueryError e = m) ∧
    (noResponseCase e → handleQueryError e = "No response from server") ∧
    (otherFailureCase e → handleQueryError e = e.message) := by
  obtain ⟨ax, rm, rq, msg⟩ := e
  refine ⟨?_, ?_, ?_, ?_, ?_, ?_, ?_⟩
  · by_cases h1 : serverRespondedCase ⟨ax, rm, rq, msg⟩
    · exact Or.inl h1
    · by_cases h2 : noResponseCase ⟨ax, rm, rq, msg⟩
      · exact Or.inr (Or.inl h2)
      · exact Or.inr (Or.inr ⟨h1, h2⟩)
  · rintro ⟨⟨_, hsome⟩, ⟨_, hnone, _⟩⟩
    rw [hnone] at hsome
    simp at hsome
  · rintro ⟨h1, h2, _⟩
    exact h2 h1
  · rintro ⟨h1, _, h2⟩
    exact h2 h1
  · rintro ⟨hax, _⟩ m hm hne
    cases hax
    cases hm
    simp [handleQueryError, jsTruthyStr, hne]
  · rintro ⟨hax, hnone, hreq⟩
    cases hax
    cases hnone
    cases hreq
    simp [handleQueryError]
  · rintro ⟨h1, h2⟩
    cases ax
    · simp [handleQueryError]
    · cases rm with
      | some m => exact absurd ⟨rfl, rfl⟩ h1
      | none =>
        cases rq
        · simp [handleQueryError]
        · exact absurd ⟨rfl, rfl, rfl⟩ h2

theorem handleQueryError_taxonomy_witness :
    handleQueryError ⟨true, some (some "rate limited"), true, "boom"⟩ =
      "rate limited" :=
  (handleQueryError_taxonomy ⟨true, some (some "rate limited"), true, "boom"⟩).2.2.2.2.1
    ⟨rfl, rfl⟩ "rate limited" rfl (by decide)

/-- C6: a run invoked while a fetch with the identical fetch key is
pending does not issue a second Remote Fetcher call — across the two
runs exactly one fetch is issued — and every reachable coordinator state
has at most one in-flight fetch per fetch key. -/
theorem run_deduplicates_inflight (s : CoordState) (p : QueryParams)
    (h : fetchKey p ∉ s.inflight) (t : CoordState) (ht : Reachable t) :
    (run s p).fetchIssued = true ∧
    (run (run s p).state p).fetchIssued = false ∧
    t.inflight.Nodup := by
  refine ⟨?_, ?_, reachable_inflight_nodup t ht⟩
  · simp [run, h]
  · simp [run, h]

theorem run_deduplicates_inflight_witness :
    (run initialState pOne).fetchIssued = true ∧
    (run (run initialState pOne).state pOne).fetchIssued = false ∧
    initialState.inflight.Nodup :=
  run_deduplicates_inflight initialState pOne (by decide)
    initialState Relation.ReflTransGen.refl

/-- C7 as stated is false: after a successful fetch for page 1 displays
sampleCoin, a run for page 2 (a different fetch key, new fetch in
flight) synchronously shows the empty sequence, clearing the previously
displayed data, because no cache entry exists for page 2's display
key. -/
theorem keep_previous_data_counterexample :
    (completeSuccess (run initialState pOne).state pOne [sampleCoin]).1.data
      = [sampleCoin] ∧
    (run (completeSuccess (run initialState pOne).state pOne [sampleCoin]).2
        pTwo).fetchIssued = true ∧
    (run (completeSuccess (run initialState pOne).state pOne [sampleCoin]).2
        pTwo).obs.data = [] := by
  refine ⟨rfl, ?_, ?_⟩ <;> decide

/-- C7 amended: while a new fetch is in flight, the previously displayed
data is retained exactly when the Store holds an entry for the new
query's display key (always the case for a pageSize-only change); run
never touches cache entries of any key, and regaining window focus
issues no refetch under the App's configuration. -/
theorem run_retains_cached_display_data (s : CoordState) (p : QueryParams)
    (prior : List MarketCoins)
    (h : storeGet s.store (displayKey p) = some prior) :
    (run s p).obs.data = prior ∧
    (run s p).state.store = s.store ∧
    focusRefetchIssued appQueryClientConfig = false := by
  refine ⟨?_, rfl, rfl⟩
  simp [run, h]

theorem run_retains_cached_display_data_witness :
    (run ⟨[(displayKey pOne, [sampleCoin])], [fetchKey pOne], [fetchKey pOne]⟩
        pOneLarger).obs.data = [sampleCoin] ∧
    (run ⟨[(displayKey pOne, [sampleCoin])], [fetchKey pOne], [fetchKey pOne]⟩
        pOneLarger).state.store = [(displayKey pOne, [sampleCoin])] ∧
    focusRefetchIssued appQueryClientConfig = false :=
  run_retains_cached_display_data
    ⟨[(displayKey pOne, [sampleCoin])], [fetchKey pOne], [fetchKey pOne]⟩
    pOneLarger [sampleCoin] (by decide)

end CoinMarket
